import Mathlib

/-!
# Verification of the personal-api contact backend

A shallow embedding of `src/main.rs`: a warp HTTP server exposing
`GET /health`, `GET /api/resume` and `POST /api/contact`.  The contact
handler validates the posted form (via the `validator` crate derive on
`ContactForm`), sanitizes fields for logging, and sends one notification
email through the Brevo HTTP API, mapping the outcome to a JSON response.

Effectful pieces are made explicit parameters:
* the process environment is an `Env` record of the four recognized
  variables (each `Option String`, `none` = unset);
* the network is an oracle `net : BrevoEmail → NetOutcome` giving the
  provider response for the message handed to it; the list of messages
  actually handed to the oracle is returned alongside the result, so
  "number of outbound attempts" is the length of that list;
* the filesystem backing `/api/resume` is an `Fs` record (existence check
  plus read result, mirroring the `Path::exists` / `fs::read` pair);
* the random UUID for a submission is an input string.
-/

/-! ## Character classes (Rust semantics)

`char::is_control` is the Unicode `Cc` category: U+0000..U+001F and
U+007F..U+009F.  `char::is_whitespace` is the Unicode `White_Space`
property; `str::trim` strips those from both ends. -/

/-- Rust `char::is_control`: the Unicode Cc category. -/
def is_control (c : Char) : Bool :=
  c.toNat < 0x20 || (0x7F ≤ c.toNat && c.toNat ≤ 0x9F)

/-- Rust `char::is_whitespace`: the Unicode White_Space property. -/
def isRustWhitespace (c : Char) : Bool :=
  let n := c.toNat
  (9 ≤ n && n ≤ 13) || n == 32 || n == 0x85 || n == 0xA0 || n == 0x1680 ||
  (0x2000 ≤ n && n ≤ 0x200A) || n == 0x2028 || n == 0x2029 ||
  n == 0x202F || n == 0x205F || n == 0x3000

/-- The filter in `sanitize_input`: not a control character and not the
null character (the second conjunct of the source is redundant, since the
null character is itself a control character). -/
def keeps_char (c : Char) : Bool :=
  !(is_control c) && !(c == Char.ofNat 0)

/-- Rust `str::trim` on the left end: drop leading whitespace. -/
def trim_left (l : List Char) : List Char :=
  l.dropWhile isRustWhitespace

/-- Rust `str::trim` on the right end: drop trailing whitespace. -/
def trim_right (l : List Char) : List Char :=
  (trim_left l.reverse).reverse

/-- Rust `str::trim`: both ends. -/
def str_trim (l : List Char) : List Char :=
  trim_right (trim_left l)

/-- `sanitize_input` on the character list: filter out control characters
and the null character, then trim (src/main.rs lines 274-281). -/
def sanitize_chars (l : List Char) : List Char :=
  str_trim (l.filter keeps_char)

/-- `fn sanitize_input(input: &str) -> String` (src/main.rs lines 274-281). -/
def sanitize_input (s : String) : String :=
  String.mk (sanitize_chars s.data)

/-! ## The `validator` crate checks

The length rule on a `String` field compares the character count against
the inclusive bounds.  The email rule is the validator crate function
`validate_email`: split at the last at-sign, check the user part against
an ASCII regex (one or more letters, digits or listed punctuation) and
the domain against dot-separated labels of 1..63 characters that start
and end alphanumeric and contain only alphanumerics and hyphens.  The
fallback branches of the crate for internationalized domain names and
bracketed IP literals are modelled as rejecting; no claim exercises a
non-ASCII domain or an IP-literal domain. -/

/-- The crate's length rule: fails iff `chars().count()` is below `min` or
above `max` (inclusive bounds). -/
def validate_length (mn mx : Nat) (s : String) : Bool :=
  mn ≤ s.length && s.length ≤ mx

/-- Characters the user-part regex of the crate's email rule accepts:
ASCII letters, digits, and the punctuation set of the regex (listed here
by code point). -/
def email_user_char (c : Char) : Bool :=
  c.isAlpha || c.isDigit ||
  [33, 35, 36, 37, 38, 39, 42, 43, 45, 46, 47,
   61, 63, 94, 95, 96, 123, 124, 125, 126].contains c.toNat

/-- ASCII letter or digit (the regex classes are case-insensitive ASCII). -/
def ascii_alphanum (c : Char) : Bool :=
  c.isAlpha || c.isDigit

/-- One label of the domain-part regex: 1..63 characters, alphanumerics
and hyphens only, first and last alphanumeric. -/
def domain_label_ok (l : List Char) : Bool :=
  match l with
  | [] => false
  | c :: cs =>
    ascii_alphanum c && l.length ≤ 63 &&
    cs.all (fun d => ascii_alphanum d || d == Char.ofNat 45) &&
    (match l.getLast? with
     | some d => ascii_alphanum d
     | none => false)

/-- Split a character list on a separator (every occurrence). -/
def split_on_char (sep : Char) : List Char → List (List Char)
  | [] => [[]]
  | c :: cs =>
    if c = sep then [] :: split_on_char sep cs
    else
      match split_on_char sep cs with
      | [] => [[c]]
      | h :: t => (c :: h) :: t

/-- Rust `rsplitn(2, sep)` made total: `some (before, after)` splitting at
the last occurrence of `sep`, `none` when `sep` does not occur. -/
def rsplit_once (sep : Char) (l : List Char) : Option (List Char × List Char) :=
  match l.reverse.dropWhile (fun c => !(c == sep)) with
  | [] => none
  | _ :: revBefore =>
    some (revBefore.reverse, (l.reverse.takeWhile (fun c => !(c == sep))).reverse)

/-- The crate's `validate_email`: empty or at-sign-free input fails; the
RFC 5321 caps (at most 64 characters before the last at-sign, at most 255
after) are checked before the regexes; then the user part and the domain
part must match their regexes.  The fallback branches (internationalized
domain names, bracketed IP literals) are modelled as rejecting, so every
email this model accepts is accepted by the crate, while the model
rejects some non-ASCII-domain and IP-literal addresses the crate accepts;
the claims that quantify over validation outcomes are therefore stated
for an arbitrary email predicate, and this model is used only to build
concrete witness inputs (all ASCII, agreed on by model and crate). -/
def validate_email (s : String) : Bool :=
  let cs := s.data
  if cs.isEmpty then false
  else
    match rsplit_once (Char.ofNat 64) cs with
    | none => false
    | some (user, domain) =>
      if user.length > 64 || domain.length > 255 then false
      else
        !(user.isEmpty) && user.all email_user_char &&
        (split_on_char (Char.ofNat 46) domain).all domain_label_ok

/-! ## The contact form and its derived validation -/

/-- `struct ContactForm` (src/main.rs lines 9-24). -/
structure ContactForm where
  email : String
  first_name : String
  last_name : String
  phone_number : String
  message : String
deriving DecidableEq, Repr

/-- `form.validate()` from the `#[derive(Validate)]` attributes,
parameterized by the email predicate `E` standing for the crate's exact
`validate_email` (whose full behavior — IDN tables, IP literals — is not
in this repository): the list of (field, rule code) violations, empty iff
the form is valid.  Violations are keyed by the serde-renamed field names
(`validator_derive` honors `#[serde(rename)]`), and the field order
follows the struct; the crate collects the violations in a map, so only
the set matters to the handler. -/
def validate_with (E : String → Bool) (f : ContactForm) : List (String × String) :=
  (if E f.email then [] else [("email", "email")]) ++
  (if validate_length 1 100 f.first_name then [] else [("firstName", "length")]) ++
  (if validate_length 1 100 f.last_name then [] else [("lastName", "length")]) ++
  (if validate_length 10 20 f.phone_number then [] else [("phoneNumber", "length")]) ++
  (if validate_length 1 1000 f.message then [] else [("message", "length")])

/-- `form.validate()` with the concrete email model filled in. -/
def validate : ContactForm → List (String × String) :=
  validate_with validate_email

/-! ## Brevo email data model -/

/-- `struct BrevoSender` (src/main.rs lines 42-46). -/
structure BrevoSender where
  name : String
  email : String
deriving DecidableEq, Repr

/-- `struct BrevoRecipient` (src/main.rs lines 48-52). -/
structure BrevoRecipient where
  email : String
  name : Option String
deriving DecidableEq, Repr

/-- `struct BrevoEmail` (src/main.rs lines 33-40).  The recipient field is
named `to` in the source; `to` is a reserved token here, so the field is
named `to_recipients`. -/
structure BrevoEmail where
  sender : BrevoSender
  to_recipients : List BrevoRecipient
  subject : String
  html_content : String
deriving DecidableEq, Repr

/-- The process environment restricted to the four variables
`send_brevo_email` reads; `none` models an unset variable. -/
structure Env where
  brevo_api_key : Option String
  brevo_sender_email : Option String
  brevo_sender_name : Option String
  contact_recipient_email : Option String
deriving DecidableEq, Repr

/-- What one call to the Brevo endpoint can come back with: a
transport-level failure (the `reqwest` error surfaced by `?`), or an HTTP
response with its status and body text (`none` when reading the body text
itself failed, which the code replaces by `"Unknown error"`). -/
inductive NetOutcome where
  | transportError (msg : String)
  | response (status : Nat) (text : Option String)
deriving DecidableEq, Repr

/-- The replacement of each newline of `contact_form.message` by the
string `<br>` (the `replace` call of src/main.rs line 238). -/
def replace_newlines (s : String) : String :=
  String.mk (s.data.flatMap (fun c => if c = '\n' then "<br>".data else [c]))

/-- The `html_content` format string of `send_brevo_email`
(src/main.rs lines 221-239), built from the original (unsanitized)
submission fields. -/
def brevo_html_content (contact_id : String) (f : ContactForm) : String :=
  "\n        <h2>New Contact Form Submission</h2>\n        <p><strong>Contact ID:</strong> "
  ++ contact_id
  ++ "</p>\n        <p><strong>Name:</strong> "
  ++ f.first_name ++ " " ++ f.last_name
  ++ "</p>\n        <p><strong>Email:</strong> "
  ++ f.email
  ++ "</p>\n        <p><strong>Phone:</strong> "
  ++ f.phone_number
  ++ "</p>\n        <p><strong>Message:</strong></p>\n        <p>"
  ++ replace_newlines f.message
  ++ "</p>\n        <hr>\n        <p><em>This message was sent from your website contact form.</em></p>\n        "

/-- The `BrevoEmail` value `send_brevo_email` constructs
(src/main.rs lines 241-253). -/
def brevo_message (sender_name sender_email recipient_email : String)
    (f : ContactForm) (contact_id : String) : BrevoEmail :=
  { sender := { name := sender_name, email := sender_email },
    to_recipients := [{ email := recipient_email, name := some "Contact Form" }],
    subject := "New Contact Form Submission from " ++ f.first_name ++ " " ++ f.last_name,
    html_content := brevo_html_content contact_id f }

/-- `async fn send_brevo_email` (src/main.rs lines 202-271).  Returns the
result the caller sees together with the list of messages handed to the
network oracle (so the caller can count outbound attempts).  Environment
lookups happen in source order; a missing required variable returns the
corresponding error before anything is sent.  The reqwest predicate
`StatusCode::is_success` is the range 200..=299. -/
def send_brevo_email (env : Env) (net : BrevoEmail → NetOutcome)
    (contact_form : ContactForm) (contact_id : String) :
    Except String Unit × List BrevoEmail :=
  match env.brevo_api_key with
  | none => (Except.error "BREVO_API_KEY environment variable not set", [])
  | some _api_key =>
    match env.brevo_sender_email with
    | none => (Except.error "BREVO_SENDER_EMAIL environment variable not set", [])
    | some sender_email =>
      match env.brevo_sender_name with
      | none => (Except.error "BREVO_SENDER_NAME environment variable not set", [])
      | some sender_name =>
        let recipient_email := env.contact_recipient_email.getD sender_email
        let email := brevo_message sender_name sender_email recipient_email
          contact_form contact_id
        match net email with
        | NetOutcome.transportError msg => (Except.error msg, [email])
        | NetOutcome.response status text =>
          if 200 ≤ status ∧ status < 300 then (Except.ok (), [email])
          else
            (Except.error ("Failed to send email: " ++ text.getD "Unknown error"),
             [email])

/-! ## HTTP replies and the handlers -/

/-- The JSON (or byte) bodies the three handlers can produce. -/
inductive Body where
  | json_error (error : String)
  | json_status (status : String)
  | json_validation (success : Bool) (message : String)
      (errors : List (String × String))
  | json_contact (success : Bool) (message : String) (id : String)
  | pdf_bytes (data : List Nat)
deriving DecidableEq, Repr

/-- An HTTP reply: status code, the explicitly set `Content-Type` header
(only the PDF branch sets one; `warp::reply::json` manages its own), and
the body. -/
structure HttpReply where
  status : Nat
  contentType : Option String
  body : Body
deriving DecidableEq, Repr

/-- The filesystem as `handle_resume` observes it: the `Path::exists`
check for the fixed path, and the result `fs::read` would produce
(`none` = the read fails). -/
structure Fs where
  resume_exists : Bool
  resume_read : Option (List Nat)
deriving DecidableEq, Repr

/-- The fixed path served by `/api/resume` (src/main.rs line 113). -/
def pdf_path : String :=
  "assets/Michael Henry Resume - Staff Software Engineer.pdf"

/-- `async fn handle_resume` (src/main.rs lines 112-143). -/
def handle_resume (fs : Fs) : HttpReply :=
  if !fs.resume_exists then
    { status := 404, contentType := none, body := Body.json_error "Resume not found" }
  else
    match fs.resume_read with
    | some pdf_data =>
      { status := 200, contentType := some "application/pdf",
        body := Body.pdf_bytes pdf_data }
    | none =>
      { status := 500, contentType := none,
        body := Body.json_error "Failed to read resume" }

/-- The success acknowledgment text (src/main.rs line 181). -/
def thanks_message : String :=
  "Thank you for your message. We\x27ll get back to you soon!"

/-- The email-failure acknowledgment text (src/main.rs line 185). -/
def received_but_failed_message : String :=
  "Your message was received, but there was an issue sending the notification email. Please try again or contact us directly."

/-- What one run of `handle_contact` produces: the HTTP reply, the
messages handed to the email gateway, and the emitted info-log lines. -/
structure ContactOutcome where
  reply : HttpReply
  gatewayCalls : List BrevoEmail
  logs : List String
deriving DecidableEq, Repr

/-- `async fn handle_contact` (src/main.rs lines 145-199), parameterized
by the email predicate `E` of the validation (see `validate_with`).
`uuid` stands for the freshly generated `Uuid::new_v4().to_string()`.
The sanitized phone and message are computed and discarded in the source
(`_sanitized_phone`, `_sanitized_message`); only the sanitized email and
names reach the log line. -/
def handle_contact_with (E : String → Bool) (env : Env) (net : BrevoEmail → NetOutcome)
    (uuid : String) (form : ContactForm) : ContactOutcome :=
  match validate_with E form with
  | [] =>
    let sanitized_email := sanitize_input form.email
    let sanitized_first_name := sanitize_input form.first_name
    let sanitized_last_name := sanitize_input form.last_name
    let contact_id := uuid
    let log_line := "Contact form submitted: " ++ sanitized_first_name ++ " "
      ++ sanitized_last_name ++ " <" ++ sanitized_email ++ "> - ID: " ++ contact_id
    match send_brevo_email env net form contact_id with
    | (Except.ok _, calls) =>
      { reply := HttpReply.mk 200 none
          (Body.json_contact true thanks_message contact_id),
        gatewayCalls := calls,
        logs := [log_line] }
    | (Except.error _, calls) =>
      { reply := HttpReply.mk 500 none
          (Body.json_contact false received_but_failed_message contact_id),
        gatewayCalls := calls,
        logs := [log_line] }
  | errs =>
    { reply := HttpReply.mk 400 none
        (Body.json_validation false "Validation failed" errs),
      gatewayCalls := [],
      logs := [] }

/-- `async fn handle_contact` with the concrete email model filled in. -/
def handle_contact : Env → (BrevoEmail → NetOutcome) → String → ContactForm → ContactOutcome :=
  handle_contact_with validate_email

/-! ## The router

`warp::path("health")` and the `path("api").and(path("resume"))` chains
match path segments without requiring the end of the path (no
`path::end()` in the source); the health route composes no method filter,
so it matches every method.  Routes are tried in source order
(`health.or(resume).or(contact)`).  `none` models a request no route
matches (or a contact request whose body fails to deserialize), which
warp turns into a rejection. -/
def route (fs : Fs) (env : Env) (net : BrevoEmail → NetOutcome) (uuid : String)
    (method : String) (path : List String) (body : Option ContactForm) :
    Option (HttpReply × List BrevoEmail × List String) :=
  if path.head? = some "health" then
    some ({ status := 200, contentType := none, body := Body.json_status "ok" }, [], [])
  else if path.take 2 = ["api", "resume"] ∧ method = "GET" then
    some (handle_resume fs, [], [])
  else if path.take 2 = ["api", "contact"] ∧ method = "POST" then
    match body with
    | some form =>
      let o := handle_contact env net uuid form
      some (o.reply, o.gatewayCalls, o.logs)
    | none => none
  else none

/-- A concrete submission every field of which passes validation; used to
instantiate hypotheses at concrete inputs. -/
def example_form : ContactForm :=
  { email := "a@b.co", first_name := "Jo", last_name := "Doe",
    phone_number := "0123456789", message := "hi" }

/-! ## Lemmas about trimming and sanitization -/

theorem head?_dropWhile_false {α : Type} {p : α → Bool} {l : List α} {a : α}
    (h : (l.dropWhile p).head? = some a) : p a = false := by
  induction l with
  | nil => simp [List.dropWhile] at h
  | cons b t ih =>
    rw [List.dropWhile_cons] at h
    split at h
    · exact ih h
    · simp only [List.head?_cons, Option.some.injEq] at h
      subst h
      simp_all

theorem dropWhile_eq_self_of_head {α : Type} {p : α → Bool} {l : List α}
    (h : ∀ a, l.head? = some a → p a = false) : l.dropWhile p = l := by
  cases l with
  | nil => rfl
  | cons b t =>
    rw [List.dropWhile_cons, if_neg]
    simp [h b rfl]

theorem dropWhile_idem {α : Type} {p : α → Bool} {l : List α} :
    (l.dropWhile p).dropWhile p = l.dropWhile p :=
  dropWhile_eq_self_of_head (fun _ ha => head?_dropWhile_false ha)

/-- The head of the right-trimmed list is the head of the list. -/
theorem head?_trim_right {y : List Char} {a : Char}
    (h : (trim_right y).head? = some a) : y.head? = some a := by
  unfold trim_right trim_left at h
  rw [List.head?_reverse] at h
  obtain ⟨t, ht⟩ := List.dropWhile_suffix (l := y.reverse) isRustWhitespace
  have hne : y.reverse.dropWhile isRustWhitespace ≠ [] := by
    intro h0
    rw [h0] at h
    simp at h
  have hy : y.reverse.getLast? = some a := by
    rw [← ht, List.getLast?_append_of_ne_nil t hne]
    exact h
  rwa [List.getLast?_reverse] at hy

theorem mem_trim_right {y : List Char} {a : Char} (h : a ∈ trim_right y) : a ∈ y := by
  unfold trim_right trim_left at h
  rw [List.mem_reverse] at h
  have := (List.dropWhile_sublist (l := y.reverse) isRustWhitespace).mem h
  rwa [List.mem_reverse] at this

theorem mem_trim_left {y : List Char} {a : Char} (h : a ∈ trim_left y) : a ∈ y :=
  (List.dropWhile_sublist isRustWhitespace).mem h

theorem mem_sanitize_chars {l : List Char} {a : Char} (h : a ∈ sanitize_chars l) :
    keeps_char a = true := by
  unfold sanitize_chars str_trim at h
  exact List.of_mem_filter (mem_trim_left (mem_trim_right h))

theorem trim_right_idem {y : List Char} : trim_right (trim_right y) = trim_right y := by
  unfold trim_right trim_left
  rw [List.reverse_reverse, dropWhile_idem]

theorem trim_right_sanitize (l : List Char) :
    trim_right (sanitize_chars l) = sanitize_chars l :=
  trim_right_idem

theorem trim_left_sanitize (l : List Char) :
    trim_left (sanitize_chars l) = sanitize_chars l := by
  apply dropWhile_eq_self_of_head
  intro a ha
  have h1 : (trim_left (l.filter keeps_char)).head? = some a :=
    head?_trim_right ha
  exact head?_dropWhile_false h1

theorem filter_sanitize (l : List Char) :
    (sanitize_chars l).filter keeps_char = sanitize_chars l :=
  List.filter_eq_self.mpr (fun _ ha => mem_sanitize_chars ha)

theorem sanitize_chars_idem (l : List Char) :
    sanitize_chars (sanitize_chars l) = sanitize_chars l := by
  calc sanitize_chars (sanitize_chars l)
      = str_trim ((sanitize_chars l).filter keeps_char) := rfl
    _ = str_trim (sanitize_chars l) := by rw [filter_sanitize]
    _ = trim_right (trim_left (sanitize_chars l)) := rfl
    _ = trim_right (sanitize_chars l) := by rw [trim_left_sanitize]
    _ = sanitize_chars l := trim_right_sanitize l

theorem head?_sanitize_not_ws {l : List Char} {a : Char}
    (h : (sanitize_chars l).head? = some a) : isRustWhitespace a = false := by
  unfold sanitize_chars str_trim at h
  exact head?_dropWhile_false (head?_trim_right h)

theorem getLast?_sanitize_not_ws {l : List Char} {a : Char}
    (h : (sanitize_chars l).getLast? = some a) : isRustWhitespace a = false := by
  unfold sanitize_chars str_trim trim_right at h
  rw [List.getLast?_reverse] at h
  exact head?_dropWhile_false h

/-- C4: the sanitizer is a pure total function, idempotent on every
string; its output contains no control character and no null character,
and neither starts nor ends with whitespace (leading and trailing
whitespace trimmed). -/
theorem sanitize_input_idempotent_clean (s : String) :
    sanitize_input (sanitize_input s) = sanitize_input s ∧
    (∀ c ∈ (sanitize_input s).data, is_control c = false ∧ c ≠ Char.ofNat 0) ∧
    (∀ c ∈ (sanitize_input s).data.head?, isRustWhitespace c = false) ∧
    (∀ c ∈ (sanitize_input s).data.getLast?, isRustWhitespace c = false) := by
  refine ⟨?_, ?_, ?_, ?_⟩
  · show String.mk (sanitize_chars (sanitize_chars s.data)) = _
    rw [sanitize_chars_idem]
    rfl
  · intro c hc
    have hk := mem_sanitize_chars hc
    unfold keeps_char at hk
    constructor
    · cases hic : is_control c <;> simp_all
    · intro h0
      subst h0
      simp [is_control] at hk
  · intro c hc
    exact head?_sanitize_not_ws (Option.mem_def.mp hc)
  · intro c hc
    exact getLast?_sanitize_not_ws (Option.mem_def.mp hc)

/-! ## Validation bounds -/

theorem if_nil_iff {c : Prop} [Decidable c] (x : String × String) :
    (if c then ([] : List (String × String)) else [x]) = [] ↔ c := by
  split <;> simp_all

/-- C2: validation bounds are inclusive.  Stated for an arbitrary email
predicate `E` — hence in particular for the validator crate's exact
`validate_email`, whatever it accepts — so that no commitment is made
about the email grammar itself: for every form whose email `E` accepts,
the whole validation passes exactly when every length field lies within
its inclusive bounds: firstName and lastName in [1,100], phoneNumber in
[10,20], message in [1,1000].  In particular lengths exactly 1, 100
(names) and 1000 (message) pass while 0, 101 and 1001 fail, and the
phone bound is [10,20]. -/
theorem validate_nil_iff_bounds (E : String → Bool) (f : ContactForm)
    (he : E f.email = true) :
    validate_with E f = [] ↔
      (1 ≤ f.first_name.length ∧ f.first_name.length ≤ 100) ∧
      (1 ≤ f.last_name.length ∧ f.last_name.length ≤ 100) ∧
      (10 ≤ f.phone_number.length ∧ f.phone_number.length ≤ 20) ∧
      (1 ≤ f.message.length ∧ f.message.length ≤ 1000) := by
  simp [validate_with, validate_length, he, List.append_eq_nil, if_nil_iff]

set_option maxRecDepth 8000 in
/-- Witness for C2 at the boundary: a 1-character first name, a
100-character last name, a 10-character phone and a 1000-character
message validate to no violations. -/
theorem validate_nil_iff_bounds_witness :
    validate { email := "a@b.co", first_name := "J",
               last_name := String.mk (List.replicate 100 'a'),
               phone_number := "0123456789",
               message := String.mk (List.replicate 1000 'a') } = [] :=
  (validate_nil_iff_bounds validate_email _ (by decide)).mpr (by decide)

/-- C3: a parsed submission that fails validation is answered with status
400, a body carrying success = false, the message "Validation failed" and
the per-field violations, and the email gateway is not called (no
outbound message, and no log line either).  Stated for an arbitrary
email predicate `E` — hence in particular for the validator crate's
exact `validate_email` — so the theorem covers every submission the real
program rejects, without committing to which emails those are: the
handler dispatches only on the violation list. -/
theorem contact_invalid_form (E : String → Bool) (env : Env)
    (net : BrevoEmail → NetOutcome)
    (uuid : String) (form : ContactForm) (errs : List (String × String))
    (h : validate_with E form = errs) (hne : errs ≠ []) :
    handle_contact_with E env net uuid form =
      { reply := HttpReply.mk 400 none
          (Body.json_validation false "Validation failed" errs),
        gatewayCalls := [], logs := [] } := by
  unfold handle_contact_with
  rw [h]
  cases errs with
  | nil => exact absurd rfl hne
  | cons e es => rfl

/-- Witness for C3: under the concrete email model (which agrees with the
crate at this ASCII input), the syntactically invalid email
"not-an-email" (no at-sign) draws a 400 validation-error reply and zero
gateway calls. -/
theorem contact_invalid_form_witness :
    handle_contact (Env.mk (some "key") (some "sender@site.io") (some "Site") none)
      (fun _ => NetOutcome.response 200 none) "id-1"
      { email := "not-an-email", first_name := "Jo", last_name := "Doe",
        phone_number := "0123456789", message := "hi" } =
      { reply := HttpReply.mk 400 none
          (Body.json_validation false "Validation failed" [("email", "email")]),
        gatewayCalls := [], logs := [] } :=
  contact_invalid_form validate_email _ _ _ _ _ (by decide) (by decide)

/-! ## Lemmas about the email client and the contact handler -/

/-- With the three required variables set, `send_brevo_email` builds the
one message, hands it to the network, and maps the outcome. -/
theorem send_brevo_email_complete (env : Env) (net : BrevoEmail → NetOutcome)
    (form : ContactForm) (id k se sn : String)
    (hk : env.brevo_api_key = some k) (he : env.brevo_sender_email = some se)
    (hn : env.brevo_sender_name = some sn) :
    send_brevo_email env net form id =
      ((match net (brevo_message sn se (env.contact_recipient_email.getD se) form id) with
        | NetOutcome.transportError msg => Except.error msg
        | NetOutcome.response status text =>
          if 200 ≤ status ∧ status < 300 then Except.ok ()
          else Except.error ("Failed to send email: " ++ text.getD "Unknown error")),
       [brevo_message sn se (env.contact_recipient_email.getD se) form id]) := by
  simp only [send_brevo_email, hk, he, hn]
  cases hnet : net (brevo_message sn se (env.contact_recipient_email.getD se) form id) with
  | transportError msg => simp [hnet]
  | response status text =>
    simp only [hnet]
    by_cases h2 : 200 ≤ status ∧ status < 300 <;> simp [h2]

/-- A required variable being unset makes `send_brevo_email` fail with no
message handed to the network. -/
theorem send_brevo_email_missing (env : Env) (net : BrevoEmail → NetOutcome)
    (form : ContactForm) (id : String)
    (h : env.brevo_api_key = none ∨ env.brevo_sender_email = none ∨
         env.brevo_sender_name = none) :
    (send_brevo_email env net form id).1.isOk = false ∧
    (send_brevo_email env net form id).2 = [] := by
  unfold send_brevo_email
  cases hak : env.brevo_api_key with
  | none => exact ⟨rfl, rfl⟩
  | some k =>
    cases hse : env.brevo_sender_email with
    | none => exact ⟨rfl, rfl⟩
    | some se =>
      cases hsn : env.brevo_sender_name with
      | none => exact ⟨rfl, rfl⟩
      | some sn =>
        rw [hak, hse, hsn] at h
        rcases h with h | h | h <;> simp at h

/-- `send_brevo_email` hands at most one message to the network. -/
theorem send_calls_le_one (env : Env) (net : BrevoEmail → NetOutcome)
    (form : ContactForm) (id : String) :
    (send_brevo_email env net form id).2.length ≤ 1 := by
  cases hak : env.brevo_api_key with
  | none => simp [send_brevo_email, hak]
  | some k =>
    cases hse : env.brevo_sender_email with
    | none => simp [send_brevo_email, hak, hse]
    | some se =>
      cases hsn : env.brevo_sender_name with
      | none => simp [send_brevo_email, hak, hse, hsn]
      | some sn =>
        rw [send_brevo_email_complete env net form id k se sn hak hse hsn]
        simp

/-- On a form that passes validation, `handle_contact` is the send result
mapped to a reply, with the gateway calls of the send and one log line
built from the sanitized fields. -/
theorem handle_contact_valid_eq (env : Env) (net : BrevoEmail → NetOutcome)
    (uuid : String) (form : ContactForm) (hv : validate form = []) :
    handle_contact env net uuid form =
      { reply := HttpReply.mk
          (if (send_brevo_email env net form uuid).1.isOk then 200 else 500) none
          (Body.json_contact (send_brevo_email env net form uuid).1.isOk
            (if (send_brevo_email env net form uuid).1.isOk then thanks_message
             else received_but_failed_message) uuid),
        gatewayCalls := (send_brevo_email env net form uuid).2,
        logs := ["Contact form submitted: " ++ sanitize_input form.first_name ++ " "
          ++ sanitize_input form.last_name ++ " <" ++ sanitize_input form.email
          ++ "> - ID: " ++ uuid] } := by
  have hv' : validate_with validate_email form = [] := hv
  unfold handle_contact handle_contact_with
  rw [hv']
  rcases hs : send_brevo_email env net form uuid with ⟨r, calls⟩
  cases r <;> simp [hs, Except.isOk, Except.toBool]

/-! ## The contact invariant (C1) -/

/-- C1 as stated is refuted at a concrete input: with the required Brevo
variables unset, a submission that passes validation produces zero calls
to the email gateway, not exactly one (the configuration error fails the
send before any network attempt), even though it is still answered. -/
theorem contact_single_attempt_counterexample :
    validate example_form = [] ∧
    (handle_contact (Env.mk none none none none)
      (fun _ => NetOutcome.response 200 none) "id-1"
      example_form).gatewayCalls.length = 0 := by
  exact ⟨by decide, rfl⟩

/-- C1 (amended): for every submission that passes validation the contact
handler makes at most one outbound gateway call — exactly one whenever the
three required environment variables are set — and the response always
carries a success flag, a message, and the generated id; on send success
the status is 200 with success true, on any send failure (including the
missing-configuration case, where no gateway call happens) the status is
500 with success false, but a response is still returned, never
dropped. -/
theorem contact_validated_response (env : Env) (net : BrevoEmail → NetOutcome)
    (uuid : String) (form : ContactForm) (hv : validate form = []) :
    (handle_contact env net uuid form).gatewayCalls.length ≤ 1 ∧
    ((env.brevo_api_key ≠ none ∧ env.brevo_sender_email ≠ none ∧
      env.brevo_sender_name ≠ none) →
      (handle_contact env net uuid form).gatewayCalls.length = 1) ∧
    (∃ ok msg, (handle_contact env net uuid form).reply.body =
      Body.json_contact ok msg uuid) ∧
    ((send_brevo_email env net form uuid).1 = Except.ok () →
      (handle_contact env net uuid form).reply =
        HttpReply.mk 200 none (Body.json_contact true thanks_message uuid)) ∧
    (∀ e, (send_brevo_email env net form uuid).1 = Except.error e →
      (handle_contact env net uuid form).reply =
        HttpReply.mk 500 none
          (Body.json_contact false received_but_failed_message uuid)) := by
  rw [handle_contact_valid_eq env net uuid form hv]
  refine ⟨send_calls_le_one env net form uuid, ?_, ⟨_, _, rfl⟩, ?_, ?_⟩
  · rintro ⟨h1, h2, h3⟩
    obtain ⟨k, hk⟩ := Option.ne_none_iff_exists.mp h1
    obtain ⟨se, hse⟩ := Option.ne_none_iff_exists.mp h2
    obtain ⟨sn, hsn⟩ := Option.ne_none_iff_exists.mp h3
    rw [send_brevo_email_complete env net form uuid k se sn hk.symm hse.symm hsn.symm]
    rfl
  · intro h
    simp [h, Except.isOk, Except.toBool]
  · intro e h
    simp [h, Except.isOk, Except.toBool]

/-- Witness for C1 (amended): a fully configured environment yields
exactly one gateway call for a valid submission. -/
theorem contact_validated_response_witness :
    (handle_contact (Env.mk (some "key") (some "sender@site.io") (some "Site") none)
      (fun _ => NetOutcome.response 200 none) "id-1"
      example_form).gatewayCalls.length = 1 :=
  (contact_validated_response _ _ _ _ (by decide)).2.1 ⟨by decide, by decide, by decide⟩

/-! ## Missing configuration (C5) -/

/-- C5: if any of BREVO_API_KEY, BREVO_SENDER_EMAIL or BREVO_SENDER_NAME
is unset, the email send fails immediately with no message handed to the
network, the handler still runs to completion, and the contact request is
answered with status 500 and the generated id (the configuration error is
an email-send failure for that request). -/
theorem missing_env_fails_without_network (env : Env) (net : BrevoEmail → NetOutcome)
    (uuid : String) (form : ContactForm) (hv : validate form = [])
    (hmiss : env.brevo_api_key = none ∨ env.brevo_sender_email = none ∨
             env.brevo_sender_name = none) :
    (send_brevo_email env net form uuid).2 = [] ∧
    (handle_contact env net uuid form).gatewayCalls = [] ∧
    (handle_contact env net uuid form).reply =
      HttpReply.mk 500 none
        (Body.json_contact false received_but_failed_message uuid) := by
  have hsend := send_brevo_email_missing env net form uuid hmiss
  rw [handle_contact_valid_eq env net uuid form hv]
  refine ⟨hsend.2, hsend.2, ?_⟩
  simp [hsend.1]

/-- Witness for C5: BREVO_API_KEY unset, valid submission, reply is 500
with the generated id. -/
theorem missing_env_fails_without_network_witness :
    (handle_contact (Env.mk none (some "sender@site.io") (some "Site") none)
      (fun _ => NetOutcome.response 200 none) "id-1" example_form).reply =
      HttpReply.mk 500 none
        (Body.json_contact false received_but_failed_message "id-1") :=
  (missing_env_fails_without_network _ _ _ _ (by decide) (Or.inl rfl)).2.2

/-! ## Gateway success criterion (C6) -/

/-- C6: with the three required variables set, exactly one message is
handed to the network (no retries); the send succeeds iff the provider
answers a 2xx status; a transport failure is surfaced as an error
carrying its text, and a non-2xx response is surfaced as an error
carrying the response body text (or "Unknown error" when the body could
not be read). -/
theorem gateway_success_iff_2xx (env : Env) (net : BrevoEmail → NetOutcome)
    (form : ContactForm) (id k se sn : String)
    (hk : env.brevo_api_key = some k) (he : env.brevo_sender_email = some se)
    (hn : env.brevo_sender_name = some sn) :
    (send_brevo_email env net form id).2 =
      [brevo_message sn se (env.contact_recipient_email.getD se) form id] ∧
    ((send_brevo_email env net form id).1 = Except.ok () ↔
      (∃ status text,
        net (brevo_message sn se (env.contact_recipient_email.getD se) form id) =
          NetOutcome.response status text ∧ 200 ≤ status ∧ status < 300)) ∧
    (∀ msg,
      net (brevo_message sn se (env.contact_recipient_email.getD se) form id) =
        NetOutcome.transportError msg →
      (send_brevo_email env net form id).1 = Except.error msg) ∧
    (∀ status text,
      net (brevo_message sn se (env.contact_recipient_email.getD se) form id) =
        NetOutcome.response status text →
      ¬(200 ≤ status ∧ status < 300) →
      (send_brevo_email env net form id).1 =
        Except.error ("Failed to send email: " ++ text.getD "Unknown error")) := by
  rw [send_brevo_email_complete env net form id k se sn hk he hn]
  refine ⟨rfl, ?_, ?_, ?_⟩
  · cases hnet : net (brevo_message sn se (env.contact_recipient_email.getD se) form id) with
    | transportError msg => simp [hnet]
    | response status text =>
      by_cases h2 : 200 ≤ status ∧ status < 300 <;> simp [hnet, h2]
  · intro msg hmsg
    simp [hmsg]
  · intro status text hresp hnot
    simp [hresp, hnot]

/-- Witness for C6: a 404 provider response with body text surfaces as an
error carrying that text. -/
theorem gateway_success_iff_2xx_witness :
    (send_brevo_email (Env.mk (some "key") (some "sender@site.io") (some "Site") none)
      (fun _ => NetOutcome.response 404 (some "route not found"))
      example_form "id-1").1 =
      Except.error ("Failed to send email: " ++ "route not found") :=
  (gateway_success_iff_2xx _ _ _ _ "key" "sender@site.io" "Site" rfl rfl rfl).2.2.2
    404 (some "route not found") rfl (by decide)

/-! ## Email content vs. log content (C7) -/

/-- C7: with the configuration present, the single outbound email is
built from the original, unsanitized submission fields — its subject is
"New Contact Form Submission from {first} {last}" over the raw names and
its HTML body is `brevo_html_content`, which interpolates the correlation
id and the raw name, email and phone, with the newlines of the raw
message rendered as line breaks — while the sanitized copies of the
email, first name and last name appear only in the log line. -/
theorem email_uses_original_fields (env : Env) (net : BrevoEmail → NetOutcome)
    (uuid : String) (form : ContactForm) (k se sn : String)
    (hv : validate form = [])
    (hk : env.brevo_api_key = some k) (he : env.brevo_sender_email = some se)
    (hn : env.brevo_sender_name = some sn) :
    (handle_contact env net uuid form).gatewayCalls =
      [{ sender := { name := sn, email := se },
         to_recipients := [{ email := env.contact_recipient_email.getD se,
                             name := some "Contact Form" }],
         subject := "New Contact Form Submission from " ++ form.first_name
           ++ " " ++ form.last_name,
         html_content := brevo_html_content uuid form }] ∧
    (handle_contact env net uuid form).logs =
      ["Contact form submitted: " ++ sanitize_input form.first_name ++ " "
        ++ sanitize_input form.last_name ++ " <" ++ sanitize_input form.email
        ++ "> - ID: " ++ uuid] := by
  rw [handle_contact_valid_eq env net uuid form hv,
      send_brevo_email_complete env net form uuid k se sn hk he hn]
  exact ⟨rfl, rfl⟩

/-- Witness for C7: a message with an embedded newline and a name with a
trailing control character reach the outbound email verbatim while the
log line holds the sanitized name. -/
theorem email_uses_original_fields_witness :
    (handle_contact (Env.mk (some "key") (some "sender@site.io") (some "Site") none)
      (fun _ => NetOutcome.response 200 none) "id-1"
      { email := "a@b.co", first_name := "Jo\x01", last_name := "Doe",
        phone_number := "0123456789", message := "hi\nthere" }).gatewayCalls =
      [{ sender := { name := "Site", email := "sender@site.io" },
         to_recipients := [{ email := "sender@site.io", name := some "Contact Form" }],
         subject := "New Contact Form Submission from " ++ "Jo\x01" ++ " " ++ "Doe",
         html_content := brevo_html_content "id-1"
           { email := "a@b.co", first_name := "Jo\x01", last_name := "Doe",
             phone_number := "0123456789", message := "hi\nthere" } }] :=
  (email_uses_original_fields _ _ _ _ "key" "sender@site.io" "Site"
    (by decide) rfl rfl rfl).1

/-! ## Recipient defaulting (C9) -/

/-- C9: the recipient of the outbound message (the third argument of
`brevo_message`, which becomes its one `to_recipients` entry) is the
value of CONTACT_RECIPIENT_EMAIL when that variable is set, and defaults
to the value of BREVO_SENDER_EMAIL when it is unset. -/
theorem recipient_defaults_to_sender (env : Env) (net : BrevoEmail → NetOutcome)
    (form : ContactForm) (id k se sn : String)
    (hk : env.brevo_api_key = some k) (he : env.brevo_sender_email = some se)
    (hn : env.brevo_sender_name = some sn) :
    (∀ nm em rc, (brevo_message nm em rc form id).to_recipients =
      [{ email := rc, name := some "Contact Form" }]) ∧
    (env.contact_recipient_email = none →
      (send_brevo_email env net form id).2 = [brevo_message sn se se form id]) ∧
    (∀ r, env.contact_recipient_email = some r →
      (send_brevo_email env net form id).2 = [brevo_message sn se r form id]) := by
  refine ⟨fun nm em rc => rfl, ?_, ?_⟩
  · intro h0
    rw [send_brevo_email_complete env net form id k se sn hk he hn, h0]
    rfl
  · intro r hr
    rw [send_brevo_email_complete env net form id k se sn hk he hn, hr]
    rfl

/-- Witness for C9: with CONTACT_RECIPIENT_EMAIL unset the one outbound
message goes to the sender address. -/
theorem recipient_defaults_to_sender_witness :
    (send_brevo_email (Env.mk (some "key") (some "sender@site.io") (some "Site") none)
      (fun _ => NetOutcome.response 201 none) example_form "id-1").2 =
      [brevo_message "Site" "sender@site.io" "sender@site.io" example_form "id-1"] :=
  (recipient_defaults_to_sender _ _ _ _ "key" "sender@site.io" "Site"
    rfl rfl rfl).2.1 rfl

/-! ## The resume endpoint (C8) -/

/-- C8: when the backing file is absent the endpoint answers 404 with the
error body "Resume not found"; when it is present and readable the whole
file is returned with Content-Type application/pdf and bytes identical to
the file; when the read fails the endpoint answers 500 with the error
body "Failed to read resume". -/
theorem resume_endpoint_spec (fs : Fs) :
    (fs.resume_exists = false →
      handle_resume fs =
        HttpReply.mk 404 none (Body.json_error "Resume not found")) ∧
    (∀ bytes, fs.resume_exists = true → fs.resume_read = some bytes →
      handle_resume fs =
        HttpReply.mk 200 (some "application/pdf") (Body.pdf_bytes bytes)) ∧
    (fs.resume_exists = true → fs.resume_read = none →
      handle_resume fs =
        HttpReply.mk 500 none (Body.json_error "Failed to read resume")) := by
  refine ⟨?_, ?_, ?_⟩
  · intro h
    simp [handle_resume, h]
  · intro bytes h hr
    simp [handle_resume, h, hr]
  · intro h hr
    simp [handle_resume, h, hr]

/-- Witness for C8: a present, readable file comes back 200 as
application/pdf with the same bytes. -/
theorem resume_endpoint_spec_witness :
    handle_resume (Fs.mk true (some [37, 80, 68, 70])) =
      HttpReply.mk 200 (some "application/pdf")
        (Body.pdf_bytes [37, 80, 68, 70]) :=
  (resume_endpoint_spec _).2.1 [37, 80, 68, 70] rfl rfl

/-! ## The health route (C10) -/

/-- C10: the health filter composes no method filter, so a request whose
path is /health is answered 200 with the body status "ok" under every
method and every state of the filesystem, environment, network and uuid
generator. -/
theorem health_ignores_method (fs : Fs) (env : Env) (net : BrevoEmail → NetOutcome)
    (uuid method : String) (body : Option ContactForm) :
    route fs env net uuid method ["health"] body =
      some (HttpReply.mk 200 none (Body.json_status "ok"), [], []) := by
  simp [route]
